import Mathlib

/-!
Shallow embedding of `parlai/crowdsourcing/tasks/turn_annotations/worlds.py`
and verification of the specification claims about it.

The embedding follows the Python source closely:
* Python dicts of annotation selections are lists of key/value pairs with
  distinct keys; plain Python lists are Lean lists.
* Fallible code (raising `ValueError`, `KeyError`, `IndexError`, ...) is
  embedded in `Except String`.
* The constants `ONBOARD_SUCCESS` / `ONBOARD_FAIL` and the
  `ONBOARD_CONFIG` thresholds live in `constants.py`, which is not part of
  the sources here; they are modelled from the spec (only their identity,
  distinctness and the threshold parameters matter for the claims).
-/

namespace TurnAnnotations

/-- Modelled from the spec: the success sentinel from `constants.py`
(`ONBOARD_SUCCESS`); the claims depend only on its identity. -/
def ONBOARD_SUCCESS : String := "onboard_success"

/-- Modelled from the spec: the failure sentinel from `constants.py`
(`ONBOARD_FAIL`); the claims depend only on its identity. -/
def ONBOARD_FAIL : String := "onboard_fail"

/-! ### Onboarding world (`TurnAnnotationsOnboardWorld`) -/

/-- `TurnAnnotationsOnboardWorld.__init__` sets `self.status = 'DISCONNECT'`
before any interaction with the worker. -/
def onboard_init_status : String := "DISCONNECT"

/-- `TurnAnnotationsOnboardWorld.has_same_answer`: length check followed by
an element-by-element comparison of the two sorted lists. -/
def has_same_answer (ans1 ans2 : List String) : Bool :=
  if ans1.length ≠ ans2.length then false
  else
    let ans1_sort := ans1.insertionSort (· ≤ ·)
    let ans2_sort := ans2.insertionSort (· ≤ ·)
    (ans1_sort.zip ans2_sort).all fun p => p.1 == p.2

/-- The labels a worker marked true in one turn:
`[key for key, selected in worker_answer.items() if selected]`.
A `worker_answer` dict is modelled as a list of key/value pairs. -/
def selected_labels (worker_answer : List (String × Bool)) : List String :=
  (worker_answer.filter fun kv => kv.2).map Prod.fst

/-- `TurnAnnotationsOnboardWorld.check_onboarding_answers`, parameterised by
the `ONBOARD_CONFIG` thresholds and by the reference answers taken from
`opt['onboard_task_data']`.  `zip` truncates to the shorter list, as in
Python. -/
def check_onboarding_answers (min_correct max_incorrect : Nat)
    (worker_answers : List (List (String × Bool)))
    (correct_answers : List (List String)) : Bool :=
  let counts := (worker_answers.zip correct_answers).foldl
    (fun acc wc =>
      if has_same_answer (selected_labels wc.1) wc.2 then (acc.1 + 1, acc.2)
      else (acc.1, acc.2 + 1))
    ((0 : Nat), (0 : Nat))
  decide (min_correct ≤ counts.1 ∧ counts.2 ≤ max_incorrect)

/-- `TurnAnnotationsOnboardWorld._handle_act`.  The act either carries no
`task_data` key (`none`) or carries the submitted list of per-turn
annotation dicts. -/
def handle_act (min_correct max_incorrect : Nat)
    (correct_answers : List (List String))
    (act_task_data : Option (List (List (String × Bool)))) : String :=
  match act_task_data with
  | none => ONBOARD_FAIL
  | some worker_answers =>
      if check_onboarding_answers min_correct max_incorrect worker_answers
          correct_answers then
        ONBOARD_SUCCESS
      else ONBOARD_FAIL

/-- `TurnAnnotationsOnboardWorld.shutdown`: the shared outcome histogram
(a Python dict) gets the key initialised to 0 if absent, then incremented.
The dict is modelled as an association list (insertion order kept). -/
def bump_status (hist : List (String × Nat)) (status : String) :
    List (String × Nat) :=
  let h1 := if (hist.lookup status).isSome then hist else hist ++ [(status, 0)]
  h1.map fun kv => if kv.1 = status then (kv.1, kv.2 + 1) else kv

/-! ### Spec-side definitions for the onboarding pass rule (claim C1).

These two definitions follow the *spec's words* ("set equality,
presence-only"), to be compared with `check_onboarding_answers` above,
which follows the source. -/

/-- Spec reading of per-turn correctness: the *set* of labels the worker
marked true equals the reference correct-label set (presence-only). -/
def spec_turn_correct (worker_answer : List (String × Bool))
    (correct_answer : List String) : Bool :=
  decide ((∀ x ∈ selected_labels worker_answer, x ∈ correct_answer) ∧
    (∀ x ∈ correct_answer, x ∈ selected_labels worker_answer))

/-- Spec reading of the onboarding pass rule: pass iff
`correct_count ≥ min_correct ∧ incorrect_count ≤ max_incorrect` with
set-equality per-turn correctness. -/
def spec_pass (min_correct max_incorrect : Nat)
    (worker_answers : List (List (String × Bool)))
    (correct_answers : List (List String)) : Bool :=
  let counts := (worker_answers.zip correct_answers).foldl
    (fun acc wc =>
      if spec_turn_correct wc.1 wc.2 then (acc.1 + 1, acc.2)
      else (acc.1, acc.2 + 1))
    ((0 : Nat), (0 : Nat))
  decide (min_correct ≤ counts.1 ∧ counts.2 ≤ max_incorrect)

/-! ### Chat world (`TurnAnnotationsChatWorld`) -/

/-- The annotation payload attached to an utterance
(`problem_data_for_prior_message`): a mapping annotation-label → bool. -/
abbrev ProblemData := List (String × Bool)

/-- One recorded dialog entry.  The main-loop entries carry no
`fake_start` key, which is modelled as `fakeStart = false`. -/
structure Utterance where
  agentIdx : Nat
  text : String
  id : String
  fakeStart : Bool
  problemData : Option ProblemData
deriving DecidableEq

/-- The `task_data` field of an inbound message. -/
structure TaskData where
  finalRating : Option String
  problemData : Option ProblemData
deriving DecidableEq

/-- An inbound message (`act`) from either party:
`{text, id (optional), task_data (optional)}`. -/
structure Act where
  text : String
  id : Option String
  taskData : Option TaskData
deriving DecidableEq

/-- The options and context of one `TurnAnnotationsChatWorld`
(`opt` plus `context_info`); immutable during a conversation. -/
structure ChatConfig where
  conversation_start_mode : String
  include_persona : Bool
  num_turns : Nat
  person1_seed_utterance : String
  person2_seed_utterance : String
  context_dataset : String
  additional_context : String
  persona_strings : List String
  agent_id : String
  bot_id : String
deriving DecidableEq

/-- The mutable per-conversation state of `TurnAnnotationsChatWorld`. -/
structure ChatState where
  dialog : List Utterance
  taskTurnIdx : Nat
  chatDone : Bool
deriving DecidableEq

/-- The state installed by `TurnAnnotationsChatWorld.__init__`. -/
def chat_init : ChatState := { dialog := [], taskTurnIdx := 0, chatDone := false }

/-- Python `text.split('<br>')[0]` on the underlying character list. -/
def cut_br_chars : List Char → List Char
  | [] => []
  | c :: rest =>
      if ("<br>".toList).isPrefixOf (c :: rest) then []
      else c :: cut_br_chars rest

/-- Python `text.split('<br>')[0]`: the prefix before the first occurrence
of the break marker (the whole string when the marker is absent). -/
def cut_br (s : String) : String := String.mk (cut_br_chars s.data)

/-- `TurnAnnotationsChatWorld._get_persona_utterance`.  The human-side
branch dispatches on the context-dataset tag and raises `ValueError` on an
unrecognized tag. -/
def get_persona_utterance (is_bot : Bool) (persona_strings : List String)
    (context_dataset : String) (additional_context : String)
    (num_turns : Nat) : Except String String :=
  if is_bot then
    let persona_pieces := persona_strings.map fun str_ => "your persona: " ++ str_
    let additional_context_pieces :=
      if context_dataset = "wizard_of_wikipedia" then [additional_context] else []
    .ok (String.intercalate "\n" (persona_pieces ++ additional_context_pieces))
  else
    let last_sentence : Except String String :=
      if context_dataset = "convai2" then
        .ok "Pretend that the conversation has already begun."
      else if context_dataset = "empathetic_dialogues" then
        .ok ( "Pretend that the conversation has already begun, and that you " ++
          "had been talking about the following situation: " ++
          "<b>\"" ++ additional_context ++ "\"</b>")
      else if context_dataset = "wizard_of_wikipedia" then
        .ok ( "Pretend that the conversation has already begun, and that you " ++
          "had been talking about <b>" ++ additional_context ++ "</b>.")
      else .error "ValueError: Context dataset unrecognized!"
    match last_sentence with
    | .error e => .error e
    | .ok sentence =>
        let joined_personas := String.intercalate "\n" persona_strings
        .ok ( "\nSuccessfully matched with another user! Now let\x27s get to know " ++
          "each other through the chat. You need to finish at least " ++
          "<b>" ++ toString num_turns ++ " chat turns</b>, and after that you can click the " ++
          "\"Done\" button to end the chat.\n\n" ++
          "<b>Your character description is:\n<span style=\"color:blue\">" ++
          joined_personas ++ "</span></b> " ++
          "\n\n<b>Remember that you can get to know each " ++
          "other as your characters, talk about any topic, or talk about a " ++
          "situation that might have happened to your character.</b>" ++
          "\n<b>Do not trivially copy the " ++
          "character descriptions into the message.</b><br><br>" ++
          sentence)

/-- The fixed greeting recorded in `'hi'` start mode. -/
def hi_msg (cfg : ChatConfig) : Utterance :=
  { agentIdx := 0, text := "Hi!", id := cfg.agent_id, fakeStart := true,
    problemData := none }

/-- The two seed utterances recorded in `'bst'` start mode. -/
def bst_human_seed (cfg : ChatConfig) : Utterance :=
  { agentIdx := 0, text := cfg.person1_seed_utterance, id := cfg.agent_id,
    fakeStart := true, problemData := none }

/-- The bot half of the `'bst'` seed pair. -/
def bst_bot_seed (cfg : ChatConfig) : Utterance :=
  { agentIdx := 1, text := cfg.person2_seed_utterance, id := cfg.bot_id,
    fakeStart := true, problemData := none }

/-- The state after the `'bst'` branch of the turn-zero `parley`: the two
seed utterances appended, the counter advanced once. -/
def bst_parley_state (cfg : ChatConfig) (s : ChatState) : ChatState :=
  { s with
    dialog := s.dialog ++ [bst_human_seed cfg, bst_bot_seed cfg]
    taskTurnIdx := s.taskTurnIdx + 1 }

/-- The first recorded bot reply in `'hi'` mode: the act's text verbatim
(no break-marker truncation happens on this path). -/
def hi_first_bot_utterance (text bid : String) : Utterance :=
  { agentIdx := 1, text := text, id := bid, fakeStart := false,
    problemData := none }

/-- The state after the `'hi'` branch of the turn-zero `parley`. -/
def hi_parley_state (cfg : ChatConfig) (text bid : String) (s : ChatState) :
    ChatState :=
  { s with
    dialog := s.dialog ++ [hi_msg cfg, hi_first_bot_utterance text bid]
    taskTurnIdx := s.taskTurnIdx + 1 }

/-- The `task_turn_idx == 0` section of `TurnAnnotationsChatWorld.parley`:
optional persona message to the bot, then the conversation-start-mode
dispatch, then `task_turn_idx += 1`.  An unrecognized mode raises
`ValueError` (so the counter is not advanced and nothing is recorded). -/
def parley_zero (cfg : ChatConfig) (first_bot_act : Act) (s : ChatState) :
    Except String ChatState :=
  match (if cfg.include_persona then
      match get_persona_utterance true cfg.persona_strings
          cfg.context_dataset cfg.additional_context cfg.num_turns with
      | .ok _ => Except.ok ()
      | .error e => Except.error e
    else Except.ok ()) with
  | .error e => .error e
  | .ok _ =>
      if cfg.conversation_start_mode = "bst" then
        .ok (bst_parley_state cfg s)
      else if cfg.conversation_start_mode = "hi" then
        match first_bot_act.id with
        | none => .error "KeyError: id"
        | some bid => .ok (hi_parley_state cfg first_bot_act.text bid s)
      else
        .error ( "ValueError: Conversation start mode " ++
          cfg.conversation_start_mode ++ " not recognized!")

/-- `self.dialog[turn_idx]['problem_data'] = p` with Python index
semantics (a negative index counts from the end; out of range raises
`IndexError`). -/
def py_attach (d : List Utterance) (i : Int) (p : ProblemData) :
    Except String (List Utterance) :=
  if 0 ≤ (if i < 0 then (d.length : Int) + i else i) then
    match d[(if i < 0 then (d.length : Int) + i else i).toNat]? with
    | some u =>
        .ok (d.set (if i < 0 then (d.length : Int) + i else i).toNat
          { u with problemData := some p })
    | none => .error "IndexError: list assignment index out of range"
  else .error "IndexError: list assignment index out of range"

/-- The utterance recorded for a non-final act in the main loop: text cut
at the first `'<br>'` for either side, id defaulting to `'NULL_ID'`. -/
def loop_utterance (slot : Nat) (a : Act) : Utterance :=
  { agentIdx := slot, text := cut_br a.text, id := a.id.getD "NULL_ID",
    fakeStart := false, problemData := none }

/-- One iteration of the main-loop `for idx, agent in enumerate(...)` body
of `TurnAnnotationsChatWorld.parley`.  Returns the new state and whether
the loop returned early (the `final_rating` branch). -/
def process_slot (cfg : ChatConfig) (slot : Nat) (a : Act) (s : ChatState) :
    Except String (ChatState × Bool) :=
  let is_final := match a.taskData with
    | some td => td.finalRating.isSome
    | none => false
  if is_final then
    let s1 := { s with chatDone := true }
    if s1.taskTurnIdx > cfg.num_turns then
      match a.taskData with
      | some td =>
          match td.problemData with
          | some p =>
              match py_attach s1.dialog ((slot : Int) - 1) p with
              | .ok d => .ok ({ s1 with dialog := d }, true)
              | .error e => .error e
          | none => .error "KeyError: problem_data_for_prior_message"
      | none => .error "KeyError: task_data"
    else .ok (s1, true)
  else
    let s1 := { s with dialog := s.dialog ++ [loop_utterance slot a] }
    if slot = 0 then
      match a.taskData with
      | some td =>
          match td.problemData with
          | some p =>
              match py_attach s1.dialog (-1) p with
              | .ok d =>
                  .ok ({ s1 with dialog := d, taskTurnIdx := s1.taskTurnIdx + 1 }, false)
              | .error e => .error e
          | none => .error "KeyError: problem_data_for_prior_message"
      | none => .error "KeyError: task_data"
    else .ok ({ s1 with taskTurnIdx := s1.taskTurnIdx + 1 }, false)

/-- The `task_turn_idx > 0` section of `TurnAnnotationsChatWorld.parley`:
the human slot is processed first, then (unless the human's message ended
the episode) the bot slot.  If the conversation were already done the
Python code would dereference an unset act (`None`). -/
def parley_main (cfg : ChatConfig) (h_act b_act : Act) (s : ChatState) :
    Except String ChatState :=
  if s.chatDone then
    .error "AttributeError: NoneType object has no attribute get"
  else
    match process_slot cfg 0 h_act s with
    | .error e => .error e
    | .ok (s1, stop) =>
        if stop then .ok s1
        else
          match process_slot cfg 1 b_act s1 with
          | .error e => .error e
          | .ok (s2, _) => .ok s2

/-- The acts one `parley` call may consume: in `'hi'` mode at turn zero the
bot produces its first reply; in the main loop both parties act. -/
structure ParleyActs where
  first_bot : Act
  human : Act
  bot : Act
deriving DecidableEq

/-- `TurnAnnotationsChatWorld.parley`: dispatch on `task_turn_idx == 0`. -/
def parley (cfg : ChatConfig) (inp : ParleyActs) (s : ChatState) :
    Except String ChatState :=
  if s.taskTurnIdx = 0 then parley_zero cfg inp.first_bot s
  else parley_main cfg inp.human inp.bot s

/-- A whole conversation: the caller invokes `parley` repeatedly until
`episode_done()` (`chat_done`) holds. -/
def run_chat (cfg : ChatConfig) (inputs : List ParleyActs) :
    Except String ChatState :=
  inputs.foldlM
    (fun s inp => if s.chatDone then .ok s else parley cfg inp s)
    chat_init

/-- `TurnAnnotationsChatWorld.save_data`: the rule set handed to the
acceptability screener. -/
def violation_types (conversation_start_mode : String) : List String :=
  let base := [ "min_words", "all_caps", "exact_match", "safety"]
  if conversation_start_mode = "bst" then base ++ [ "penalize_greetings"]
  else base

/-- `TurnAnnotationsChatWorld.save_data`: the texts handed to the
acceptability screener (the human side of the dialog). -/
def human_texts (dialog : List Utterance) : List String :=
  (dialog.filter fun m => m.agentIdx == 0).map fun m => m.text

/-- `TurnAnnotationsChatWorld.save_data`: the screener invocation, when
enabled, receives the human-side texts and the rule set; otherwise the
screener is not run (`violations_string = None`). -/
def save_data_screener_call (check_acceptability : Bool)
    (conversation_start_mode : String) (dialog : List Utterance) :
    Option (List String × List String) :=
  if check_acceptability then
    some (human_texts dialog, violation_types conversation_start_mode)
  else none

/-! ### `validate_onboarding` -/

/-- One entry of `data['outputs']['messages']`: its optional `data`
payload, which optionally carries a `final_status` field. -/
structure OnboardMessage where
  data : Option (Option String)
deriving DecidableEq

/-- `validate_onboarding`.  The message log may contain `None` entries
(`status_message is None` is checked); `messages[-2]` raises `IndexError`
when the log holds exactly one message. -/
def validate_onboarding (messages : List (Option OnboardMessage)) :
    Except String Bool :=
  if messages.length = 0 then .ok false
  else
    match (if 0 ≤ (messages.length : Int) - 2 then
        messages[((messages.length : Int) - 2).toNat]? else none) with
    | none => .error "IndexError: list index out of range"
    | some status_message =>
        match status_message with
        | none => .ok false
        | some m =>
            match m.data with
            | none => .ok false
            | some submitted_data =>
                .ok (submitted_data == some ONBOARD_SUCCESS)

/-! ### `make_world` bot-identity assignment -/

/-- `remaining_counts_needed` in `make_world`:
`[(m, c - run_statistics[m]) for (m, c) in opt['conversations_needed'].items()]`. -/
def remaining_counts_needed (conversations_needed : List (String × Int))
    (run_statistics : String → Int) : List (String × Int) :=
  conversations_needed.map fun mc => (mc.1, mc.2 - run_statistics mc.1)

/-- Stable insertion used to embed Python's stable
`sort(reverse=True, key=lambda x: x[1])`. -/
def insert_desc (x : String × Int) : List (String × Int) → List (String × Int)
  | [] => [x]
  | y :: ys => if x.2 ≥ y.2 then x :: y :: ys else y :: insert_desc x ys

/-- Stable descending sort by the count component; equal counts keep their
original (dict insertion) order, exactly as Python's stable `sort` with
`reverse=True` does. -/
def sort_desc : List (String × Int) → List (String × Int)
  | [] => []
  | x :: xs => insert_desc x (sort_desc xs)

/-- The earliest entry attaining the maximal count (the specification-side
description of the head of a stable descending sort). -/
def first_argmax : List (String × Int) → Option (String × Int)
  | [] => none
  | x :: xs =>
      match first_argmax xs with
      | none => some x
      | some y => if y.2 > x.2 then some y else some x

/-- The bot-selection step of `make_world`: sort the remaining counts,
take the first model, and increment its `run_statistics` entry.
An empty `conversations_needed` mapping would raise `IndexError`
(`remaining_counts_needed[0]`), modelled as `none`. -/
def make_world_select (conversations_needed : List (String × Int))
    (run_statistics : String → Int) :
    Option (String × (String → Int)) :=
  match (sort_desc (remaining_counts_needed conversations_needed
      run_statistics)).head? with
  | none => none
  | some mc =>
      some (mc.1, fun k => if k = mc.1 then run_statistics k + 1
        else run_statistics k)

/-! ### Verification-side definitions -/

/-- The fields of a recorded utterance other than the retro-attached
annotation record (used to state that utterances, once appended, are
never removed or altered). -/
def core_fields (u : Utterance) : Nat × String × String × Bool :=
  (u.agentIdx, u.text, u.id, u.fakeStart)

/-- The dialog with each utterance reduced to its core fields. -/
def core_list (d : List Utterance) : List (Nat × String × String × Bool) :=
  d.map core_fields

/-- The sequence of `agent_idx` values of a dialog. -/
def ag_list (d : List Utterance) : List Nat :=
  d.map fun u => u.agentIdx

/-- `alt_from k l`: the list `l` reads `k % 2, (k+1) % 2, ...`, i.e. it
strictly alternates starting from parity `k`. -/
def alt_from : Nat → List Nat → Prop
  | _, [] => True
  | k, a :: rest => a = k % 2 ∧ alt_from (k + 1) rest

/-- The chat-state invariant maintained by `parley` after the first call:
the dialog holds one entry more than the turn counter, the counter is odd
at every point where another `parley` may run, and the recorded
`agent_idx` values alternate `0,1,0,1,...`. -/
def chat_inv (s : ChatState) : Prop :=
  s.dialog.length = s.taskTurnIdx + 1 ∧
  (s.chatDone = false → s.taskTurnIdx % 2 = 1) ∧
  alt_from 0 (ag_list s.dialog)

/-- A concrete `'bst'`-mode configuration used for concrete runs. -/
def ex_cfg_bst : ChatConfig :=
  { conversation_start_mode := "bst", include_persona := false,
    num_turns := 1, person1_seed_utterance := "s1",
    person2_seed_utterance := "s2", context_dataset := "convai2",
    additional_context := "", persona_strings := [], agent_id := "W",
    bot_id := "B" }

/-- A concrete first bot act. -/
def ex_first_act : Act := { text := "first", id := some "B", taskData := none }

/-- A concrete ordinary human act carrying an annotation payload. -/
def ex_h_act : Act :=
  { text := "hello", id := some "W",
    taskData := some { finalRating := none, problemData := some [("ok", true)] } }

/-- A concrete ordinary bot act. -/
def ex_b_act : Act := { text := "resp", id := some "B", taskData := none }

/-- A concrete human act carrying the rating-completion signal. -/
def ex_h_fin : Act :=
  { text := "", id := some "W",
    taskData := some { finalRating := some "5", problemData := some [("fin", true)] } }

/-- A concrete bot act carrying the rating-completion signal. -/
def ex_b_fin : Act :=
  { text := "", id := some "B",
    taskData := some { finalRating := some "5", problemData := some [("bfin", true)] } }

/-- A concrete parley input bundle. -/
def ex_inp (h b : Act) : ParleyActs :=
  { first_bot := ex_first_act, human := h, bot := b }

/-- A concrete human-side utterance. -/
def ex_u0 : Utterance :=
  { agentIdx := 0, text := "t0", id := "W", fakeStart := true,
    problemData := none }

/-- The recorded human utterance of the concrete main-loop round. -/
def ex_c3_human_utt : Utterance :=
  { agentIdx := 0, text := "hello", id := "W", fakeStart := false,
    problemData := some [("ok", true)] }

/-- The recorded bot utterance of the concrete main-loop round. -/
def ex_c3_bot_utt : Utterance :=
  { agentIdx := 1, text := "resp", id := "B", fakeStart := false,
    problemData := none }

/-- The state after the concrete `'bst'` turn-zero parley. -/
def ex_c3_mid : ChatState :=
  { dialog := [bst_human_seed ex_cfg_bst, bst_bot_seed ex_cfg_bst],
    taskTurnIdx := 1, chatDone := false }

/-- The completed state of the short concrete `'bst'` run. -/
def ex_c3_state : ChatState :=
  { dialog := [bst_human_seed ex_cfg_bst, bst_bot_seed ex_cfg_bst],
    taskTurnIdx := 1, chatDone := true }

/-- The state after one concrete main-loop round from `ex_c3_mid`. -/
def ex_c3_post : ChatState :=
  { dialog := [bst_human_seed ex_cfg_bst, bst_bot_seed ex_cfg_bst,
      ex_c3_human_utt, ex_c3_bot_utt],
    taskTurnIdx := 3, chatDone := false }

/-! ## Theorems -/

/-! ### C1: onboarding pass rule -/

lemma zip_all_eq : ∀ (l1 l2 : List String), l1.length = l2.length →
    ((((l1.zip l2).all fun p => p.1 == p.2) = true) ↔ l1 = l2)
  | [], [], _ => by simp
  | [], _ :: _, h => by simp at h
  | _ :: _, [], h => by simp at h
  | a :: l1, b :: l2, h => by
      have ih := zip_all_eq l1 l2 (by simpa using h)
      simp [List.zip_cons_cons, ih]

lemma has_same_answer_iff_perm (a b : List String) :
    has_same_answer a b = true ↔ a.Perm b := by
  unfold has_same_answer
  split
  · rename_i hne
    simp only [Bool.false_eq_true, false_iff]
    exact fun hp => hne hp.length_eq
  · rename_i hne
    have hlen : a.length = b.length := not_ne_iff.mp hne
    have hslen : (a.insertionSort (· ≤ ·)).length =
        (b.insertionSort (· ≤ ·)).length := by
      rw [(List.perm_insertionSort _ a).length_eq,
        (List.perm_insertionSort _ b).length_eq, hlen]
    rw [zip_all_eq _ _ hslen]
    constructor
    · intro he
      exact ((List.perm_insertionSort _ a).symm.trans (he ▸
        (List.perm_insertionSort _ b)))
    · intro hp
      exact List.eq_of_perm_of_sorted
        ((List.perm_insertionSort _ a).trans
          (hp.trans (List.perm_insertionSort _ b).symm))
        (List.sorted_insertionSort _ a) (List.sorted_insertionSort _ b)

lemma foldl_counts {α : Type} (f : α → Bool) :
    ∀ (l : List α) (a b : Nat),
      l.foldl
        (fun acc x => if f x then (acc.1 + 1, acc.2) else (acc.1, acc.2 + 1))
        (a, b) =
      (a + l.countP f, b + l.countP fun x => !f x)
  | [], a, b => by simp
  | x :: l, a, b => by
      by_cases hf : f x
      · simp [hf, foldl_counts f l (a + 1) b, List.countP_cons, Prod.ext_iff]
        omega
      · simp [hf, foldl_counts f l a (b + 1), List.countP_cons, Prod.ext_iff]
        omega

lemma selected_labels_nodup (w : List (String × Bool))
    (hw : (w.map Prod.fst).Nodup) : (selected_labels w).Nodup :=
  List.Nodup.sublist (List.Sublist.map Prod.fst (List.filter_sublist w)) hw

lemma turn_correct_agree (w : List (String × Bool)) (c : List String)
    (hw : (w.map Prod.fst).Nodup) (hc : c.Nodup) :
    has_same_answer (selected_labels w) c = spec_turn_correct w c := by
  rw [Bool.eq_iff_iff, has_same_answer_iff_perm,
    List.perm_ext_iff_of_nodup (selected_labels_nodup w hw) hc]
  unfold spec_turn_correct
  rw [decide_eq_true_eq]
  constructor
  · intro h
    exact ⟨fun x hx => (h x).mp hx, fun x hx => (h x).mpr hx⟩
  · intro h x
    exact ⟨fun hx => h.1 x hx, fun hx => h.2 x hx⟩

/-- C1, counterexample.  With reference correct-label list `["a", "a"]`
(a duplicated label) and a worker who selected exactly `{"a"}`, the
worker's selected-label *set* equals the reference *set*, so under the
claim's set-equality reading (`spec_pass`, thresholds
`min_correct = 1`, `max_incorrect = 0`) the submission passes; the code
(`check_onboarding_answers`, which compares sorted lists, i.e. multisets)
fails it. -/
theorem c1_counterexample :
    check_onboarding_answers 1 0 [[( "a", true)]] [[ "a", "a"]] = false ∧
    spec_pass 1 0 [[( "a", true)]] [[ "a", "a"]] = true := by
  constructor
  · rfl
  · rfl

/-- C1, amended: whenever every reference correct-label list is
duplicate-free (and worker answers are dicts, i.e. have duplicate-free
keys), the onboarding decision is exactly the spec's rule: pass iff
`correct_count ≥ min_correct ∧ incorrect_count ≤ max_incorrect` with
per-turn correctness being set equality of the selected labels against
the reference labels, order-independent.  (In general the code compares
sorted lists, i.e. multisets, which the counterexample separates.) -/
theorem c1_pass_rule (min_correct max_incorrect : Nat)
    (worker_answers : List (List (String × Bool)))
    (correct_answers : List (List String))
    (hw : ∀ w ∈ worker_answers, (w.map Prod.fst).Nodup)
    (hc : ∀ c ∈ correct_answers, c.Nodup) :
    check_onboarding_answers min_correct max_incorrect worker_answers
        correct_answers =
      spec_pass min_correct max_incorrect worker_answers correct_answers := by
  unfold check_onboarding_answers spec_pass
  rw [foldl_counts, foldl_counts]
  have hcong : ∀ wc ∈ worker_answers.zip correct_answers,
      has_same_answer (selected_labels wc.1) wc.2 = spec_turn_correct wc.1 wc.2 := by
    intro wc hwc
    obtain ⟨h1, h2⟩ := List.of_mem_zip (a := wc.1) (b := wc.2) (by simpa using hwc)
    exact turn_correct_agree _ _ (hw _ h1) (hc _ h2)
  have h1 : List.countP (fun wc => has_same_answer (selected_labels wc.1) wc.2)
      (worker_answers.zip correct_answers) =
      List.countP (fun wc => spec_turn_correct wc.1 wc.2)
        (worker_answers.zip correct_answers) :=
    List.countP_congr fun wc hwc => by rw [hcong wc hwc]
  have h2 : List.countP (fun wc => !has_same_answer (selected_labels wc.1) wc.2)
      (worker_answers.zip correct_answers) =
      List.countP (fun wc => !spec_turn_correct wc.1 wc.2)
        (worker_answers.zip correct_answers) :=
    List.countP_congr fun wc hwc => by rw [hcong wc hwc]
  rw [h1, h2]

/-- C1, witness for the amended theorem at a concrete input. -/
theorem c1_witness :
    check_onboarding_answers 1 0 [[( "a", true), ( "b", false)]] [[ "a"]] =
      spec_pass 1 0 [[( "a", true), ( "b", false)]] [[ "a"]] :=
  c1_pass_rule 1 0 [[( "a", true), ( "b", false)]] [[ "a"]]
    (by decide) (by decide)

/-! ### C7: zero submitted answers -/

/-- C7: an onboarding act with no submitted `task_data` payload is handled
as `ONBOARD_FAIL`, and (for any positive `min_correct` threshold, as the
configured threshold is) an act submitting an empty annotations list
fails as well; `handle_act` is a total function, so neither case raises. -/
theorem c7_zero_answers_fail (min_correct max_incorrect : Nat)
    (correct_answers : List (List String)) (h : 1 ≤ min_correct) :
    handle_act min_correct max_incorrect correct_answers none = ONBOARD_FAIL ∧
    handle_act min_correct max_incorrect correct_answers (some []) =
      ONBOARD_FAIL := by
  refine ⟨rfl, ?_⟩
  have hz : check_onboarding_answers min_correct max_incorrect []
      correct_answers = false := by
    unfold check_onboarding_answers
    simp only [List.zip_nil_left, List.foldl_nil, decide_eq_false_iff_not,
      not_and]
    omega
  simp [handle_act, hz]

/-- C7, witness at a concrete input. -/
theorem c7_witness :
    handle_act 3 1 [[ "a"]] none = ONBOARD_FAIL ∧
    handle_act 3 1 [[ "a"]] (some []) = ONBOARD_FAIL :=
  c7_zero_answers_fail 3 1 [[ "a"]] (by decide)

/-! ### C10: onboarding status histogram -/

lemma lookup_bump_map (l : List (String × Nat)) (s t : String) :
    (l.map fun kv => if kv.1 = s then (kv.1, kv.2 + 1) else kv).lookup t =
      if t = s then (l.lookup t).map (· + 1) else l.lookup t := by
  induction l with
  | nil =>
      by_cases hts : t = s <;> simp [List.lookup, hts]
  | cons kv rest ih =>
      obtain ⟨k, v⟩ := kv
      by_cases hks : k = s
      · subst hks
        by_cases htk : t = k
        · subst htk
          simp [List.lookup_cons]
        · have hbeq : (t == k) = false := beq_eq_false_iff_ne.mpr htk
          simp [List.lookup_cons, hbeq, ih, htk]
      · by_cases htk : t = k
        · subst htk
          simp [List.lookup_cons, hks]
        · have hbeq : (t == k) = false := beq_eq_false_iff_ne.mpr htk
          simp [List.lookup_cons, hbeq, ih, hks]

lemma lookup_append_assoc (l1 l2 : List (String × Nat)) (k : String) :
    (l1 ++ l2).lookup k =
      match l1.lookup k with
      | some v => some v
      | none => l2.lookup k := by
  induction l1 with
  | nil => simp [List.lookup]
  | cons kv rest ih =>
      obtain ⟨k1, v1⟩ := kv
      by_cases hk : k = k1
      · have hbeq : (k == k1) = true := beq_iff_eq.mpr hk
        simp only [List.cons_append, List.lookup_cons, hbeq]
      · have hbeq : (k == k1) = false := beq_eq_false_iff_ne.mpr hk
        simp only [List.cons_append, List.lookup_cons, hbeq, ih]

/-- C10: the onboarding session status is initialised to `'DISCONNECT'`
before any interaction, and `shutdown` bumps the shared outcome histogram
at exactly the key of the session's terminal status: that key's count
grows by one (from a default of zero when absent) and every other key is
untouched.  A session that never reaches a success/fail decision keeps
the initial status and is therefore counted under `'DISCONNECT'`. -/
theorem c10_histogram (hist : List (String × Nat)) (s t : String)
    (hne : t ≠ s) :
    onboard_init_status = "DISCONNECT" ∧
    (bump_status hist s).lookup s = some ((hist.lookup s).getD 0 + 1) ∧
    (bump_status hist s).lookup t = hist.lookup t := by
  refine ⟨rfl, ?_, ?_⟩
  · unfold bump_status
    by_cases hp : (hist.lookup s).isSome
    · simp only [hp, if_true]
      rw [lookup_bump_map, if_pos rfl]
      obtain ⟨v, hv⟩ := Option.isSome_iff_exists.mp hp
      rw [hv]
      rfl
    · simp only [hp, if_false, Bool.false_eq_true]
      rw [lookup_bump_map, if_pos rfl, lookup_append_assoc]
      rw [Option.not_isSome_iff_eq_none.mp hp]
      simp [List.lookup]
  · unfold bump_status
    by_cases hp : (hist.lookup s).isSome
    · simp only [hp, if_true]
      rw [lookup_bump_map, if_neg hne]
    · simp only [hp, if_false, Bool.false_eq_true]
      rw [lookup_bump_map, if_neg hne, lookup_append_assoc]
      have hbeq : (t == s) = false := beq_eq_false_iff_ne.mpr hne
      cases hl : hist.lookup t with
      | some v => rfl
      | none => simp [List.lookup, hbeq]

/-- C10, witness at a concrete input. -/
theorem c10_witness :
    onboard_init_status = "DISCONNECT" ∧
    (bump_status [( "x", 2)] "DISCONNECT").lookup "DISCONNECT" =
      some (((([( "x", 2)] : List (String × Nat)).lookup "DISCONNECT").getD 0) + 1) ∧
    (bump_status [( "x", 2)] "DISCONNECT").lookup "x" =
      ([( "x", 2)] : List (String × Nat)).lookup "x" :=
  c10_histogram [( "x", 2)] "DISCONNECT" "x" (by decide)

/-! ### C5: `validate_onboarding` -/

/-- C5, counterexample.  With a log holding exactly one message the
second-to-last message is absent, yet `validate_onboarding` raises
`IndexError` (`messages[-2]` is out of range) instead of returning
`False` as the claim states. -/
theorem c5_counterexample :
    validate_onboarding [some { data := none }] =
      Except.error "IndexError: list index out of range" ∧
    validate_onboarding [some { data := none }] ≠ Except.ok false := by
  exact ⟨rfl, fun h => Except.noConfusion h⟩

/-- C5, amended: `validate_onboarding` returns `False` when the log is
empty, when the second-to-last message is `None`, when it carries no
`data` payload, or when the payload's `final_status` differs from the
success sentinel; it returns `True` exactly when the second-to-last
message exists and its payload's `final_status` equals `ONBOARD_SUCCESS`.
However, on a log holding exactly one message the `messages[-2]` lookup
raises `IndexError` rather than returning `False`. -/
theorem c5_validate (messages : List (Option OnboardMessage)) :
    (validate_onboarding messages = Except.ok true ↔
      (2 ≤ messages.length ∧ ∃ m : OnboardMessage,
        messages[messages.length - 2]? = some (some m) ∧
        m.data = some (some ONBOARD_SUCCESS))) ∧
    (messages.length = 1 →
      validate_onboarding messages =
        Except.error "IndexError: list index out of range") ∧
    (messages.length ≠ 1 → ∃ b : Bool, validate_onboarding messages =
      Except.ok b) := by
  match messages with
  | [] =>
      refine ⟨?_, by simp, fun _ => ⟨false, rfl⟩⟩
      rw [show validate_onboarding [] = Except.ok false from rfl]
      simp
  | [m0] =>
      have he : validate_onboarding [m0] =
          Except.error "IndexError: list index out of range" := rfl
      refine ⟨?_, fun _ => he, fun h => absurd (by simp) h⟩
      rw [he]
      constructor
      · intro h
        exact Except.noConfusion h
      · rintro ⟨h2, -⟩
        simp at h2
  | m0 :: m1 :: rest =>
      have hlen : (m0 :: m1 :: rest).length = rest.length + 2 := by simp
      have hnz : ¬ (m0 :: m1 :: rest).length = 0 := by simp
      have hj : (0 : Int) ≤ ((m0 :: m1 :: rest).length : Int) - 2 := by
        rw [hlen]; push_cast; omega
      have hjn : (((m0 :: m1 :: rest).length : Int) - 2).toNat =
          (m0 :: m1 :: rest).length - 2 := by
        rw [hlen]; push_cast; omega
      have hidx : (m0 :: m1 :: rest).length - 2 < (m0 :: m1 :: rest).length := by
        rw [hlen]; omega
      obtain ⟨sm, hsm⟩ : ∃ sm, (m0 :: m1 :: rest)[(m0 :: m1 :: rest).length - 2]? =
          some sm := ⟨_, List.getElem?_eq_getElem hidx⟩
      unfold validate_onboarding
      rw [if_neg hnz, if_pos hj, hjn, hsm]
      have h2 : 2 ≤ (m0 :: m1 :: rest).length := by rw [hlen]; omega
      refine ⟨?_, fun h1 => by rw [hlen] at h1; omega, fun _ => ?_⟩
      · cases sm with
        | none => simp [h2]
        | some m =>
            cases hd : m.data with
            | none => simp [h2, hd]
            | some submitted_data => simp [h2, hd]
      · cases sm with
        | none => exact ⟨false, rfl⟩
        | some m =>
            cases hd : m.data with
            | none => exact ⟨false, by simp [hd]⟩
            | some submitted_data =>
                exact ⟨submitted_data == some ONBOARD_SUCCESS, by simp [hd]⟩

/-- C5, witness at concrete inputs. -/
theorem c5_witness :
    (validate_onboarding [some { data := some (some "onboard_success") },
        some { data := none }] = Except.ok true ↔
      (2 ≤ ([some { data := some (some "onboard_success") },
          some { data := none }] : List (Option OnboardMessage)).length ∧
        ∃ m : OnboardMessage,
          ([some { data := some (some "onboard_success") },
            some { data := none }] :
              List (Option OnboardMessage))[([some { data := some (some "onboard_success") },
            some { data := none }] : List (Option OnboardMessage)).length - 2]? =
            some (some m) ∧ m.data = some (some ONBOARD_SUCCESS))) ∧
    (([some { data := some (some "onboard_success") }, some { data := none }] :
        List (Option OnboardMessage)).length = 1 →
      validate_onboarding [some { data := some (some "onboard_success") },
        some { data := none }] =
        Except.error "IndexError: list index out of range") ∧
    (([some { data := some (some "onboard_success") }, some { data := none }] :
        List (Option OnboardMessage)).length ≠ 1 →
      ∃ b : Bool, validate_onboarding [some { data := some (some "onboard_success") },
        some { data := none }] = Except.ok b) :=
  c5_validate [some { data := some (some "onboard_success") },
    some { data := none }]

/-! ### C2: acceptability screener rule set -/

/-- C2, counterexample.  The code *includes* the `'penalize_greetings'`
rule exactly when the conversation-start mode is `'bst'` and excludes it
otherwise (e.g. in `'hi'` mode), the opposite of the claim. -/
theorem c2_counterexample :
    ( "penalize_greetings" ∈ violation_types "bst") ∧
    ( "penalize_greetings" ∉ violation_types "hi") := by
  constructor
  · simp [violation_types]
  · simp [violation_types]

/-- C2, amended: when acceptability checking is enabled, `save_data`
runs the screener over exactly the human-side (`agent_idx = 0`) utterance
texts, and the rule set *includes* the penalize-greeting rule precisely
when conversation-start mode was `'bst'` (the seeded-pair mode) and
excludes it in every other mode; with checking disabled the screener is
not run. -/
theorem c2_screener_rules :
    (∀ (mode : String) (dialog : List Utterance),
      save_data_screener_call true mode dialog =
        some (human_texts dialog, violation_types mode)) ∧
    (∀ (mode : String) (dialog : List Utterance),
      save_data_screener_call false mode dialog = none) ∧
    (∀ mode : String,
      ( "penalize_greetings" ∈ violation_types mode ↔ mode = "bst")) ∧
    (∀ (dialog : List Utterance) (u : Utterance),
      u ∈ dialog → u.agentIdx = 0 → u.text ∈ human_texts dialog) := by
  refine ⟨fun _ _ => rfl, fun _ _ => rfl, fun mode => ?_, ?_⟩
  · unfold violation_types
    by_cases hm : mode = "bst" <;> simp [hm]
  · intro dialog u hu h0
    unfold human_texts
    exact List.mem_map_of_mem _ (List.mem_filter.mpr ⟨hu, by simp [h0]⟩)

/-- C2, witness for the amended theorem at a concrete input. -/
theorem c2_witness :
    save_data_screener_call true "hi" [ex_u0] =
      some (human_texts [ex_u0], violation_types "hi") ∧
    "t0" ∈ human_texts [ex_u0] :=
  ⟨c2_screener_rules.1 "hi" [ex_u0],
    c2_screener_rules.2.2.2 [ex_u0] ex_u0 (by simp) rfl⟩

/-! ### C6: fatal configuration errors -/

/-- C6: an unrecognized conversation-start mode makes the turn-zero
`parley` raise `ValueError` for every input reaching that branch (and the
whole conversation run aborts with that error, with no retry), and an
unrecognized context-dataset tag makes the human-side persona-utterance
builder raise `ValueError` for every input reaching that branch. -/
theorem c6_config_errors :
    (∀ (cfg : ChatConfig) (a : Act) (s : ChatState),
      cfg.conversation_start_mode ≠ "bst" →
      cfg.conversation_start_mode ≠ "hi" →
      parley_zero cfg a s = Except.error
        ( "ValueError: Conversation start mode " ++
          cfg.conversation_start_mode ++ " not recognized!")) ∧
    (∀ (cfg : ChatConfig) (inp : ParleyActs) (rest : List ParleyActs),
      cfg.conversation_start_mode ≠ "bst" →
      cfg.conversation_start_mode ≠ "hi" →
      run_chat cfg (inp :: rest) = Except.error
        ( "ValueError: Conversation start mode " ++
          cfg.conversation_start_mode ++ " not recognized!")) ∧
    (∀ (persona_strings : List String)
      (context_dataset additional_context : String) (num_turns : Nat),
      context_dataset ≠ "convai2" →
      context_dataset ≠ "empathetic_dialogues" →
      context_dataset ≠ "wizard_of_wikipedia" →
      get_persona_utterance false persona_strings context_dataset
          additional_context num_turns =
        Except.error "ValueError: Context dataset unrecognized!") := by
  have hzero : ∀ (cfg : ChatConfig) (a : Act) (s : ChatState),
      cfg.conversation_start_mode ≠ "bst" →
      cfg.conversation_start_mode ≠ "hi" →
      parley_zero cfg a s = Except.error
        ( "ValueError: Conversation start mode " ++
          cfg.conversation_start_mode ++ " not recognized!") := by
    intro cfg a s h1 h2
    simp only [parley_zero, get_persona_utterance]
    cases hip : cfg.include_persona <;> simp [h1, h2]
  refine ⟨hzero, ?_, ?_⟩
  · intro cfg inp rest h1 h2
    have hz := hzero cfg inp.first_bot chat_init h1 h2
    have hcons : run_chat cfg (inp :: rest) =
        (parley cfg inp chat_init) >>= fun s =>
          rest.foldlM (fun s i => if s.chatDone then Except.ok s
            else parley cfg i s) s := rfl
    rw [hcons,
      show parley cfg inp chat_init =
        parley_zero cfg inp.first_bot chat_init from rfl, hz]
    rfl
  · intro ps cd ac n h1 h2 h3
    simp [get_persona_utterance, h1, h2, h3]

/-- C6, witness at concrete inputs. -/
theorem c6_witness :
    parley_zero { ex_cfg_bst with conversation_start_mode := "foo" }
        ex_first_act chat_init = Except.error
      ( "ValueError: Conversation start mode " ++ "foo" ++
        " not recognized!") ∧
    run_chat { ex_cfg_bst with conversation_start_mode := "foo" }
        [ex_inp ex_h_act ex_b_act] = Except.error
      ( "ValueError: Conversation start mode " ++ "foo" ++
        " not recognized!") ∧
    get_persona_utterance false [ "p"] "bad_dataset" "ac" 3 =
      Except.error "ValueError: Context dataset unrecognized!" :=
  ⟨c6_config_errors.1 _ ex_first_act chat_init (by decide) (by decide),
   c6_config_errors.2.1 _ (ex_inp ex_h_act ex_b_act) [] (by decide) (by decide),
   c6_config_errors.2.2 [ "p"] "bad_dataset" "ac" 3 (by decide) (by decide)
     (by decide)⟩

/-! ### C8: bot identity assignment -/

lemma insert_desc_head (x : String × Int) (l : List (String × Int)) :
    (insert_desc x l).head? = some (match l.head? with
      | none => x
      | some y => if x.2 ≥ y.2 then x else y) := by
  cases l with
  | nil => rfl
  | cons y ys =>
      simp only [insert_desc, List.head?_cons]
      split <;> simp_all

lemma sort_desc_head : ∀ l : List (String × Int),
    (sort_desc l).head? = first_argmax l
  | [] => rfl
  | x :: xs => by
      simp only [sort_desc, first_argmax, insert_desc_head, sort_desc_head xs]
      cases h : first_argmax xs with
      | none => rfl
      | some y =>
          simp only []
          by_cases hge : x.2 ≥ y.2
          · rw [if_pos hge, if_neg (by omega)]
          · rw [if_neg hge, if_pos (by omega)]

lemma first_argmax_mem : ∀ (l : List (String × Int)) (m : String × Int),
    first_argmax l = some m → m ∈ l
  | [], m, h => by simp [first_argmax] at h
  | x :: xs, m, h => by
      cases hx : first_argmax xs with
      | none =>
          simp only [first_argmax, hx] at h
          cases h
          exact List.mem_cons_self x xs
      | some y =>
          simp only [first_argmax, hx] at h
          by_cases hgt : y.2 > x.2
          · rw [if_pos hgt] at h
            cases h
            exact List.mem_cons_of_mem x (first_argmax_mem xs _ hx)
          · rw [if_neg hgt] at h
            cases h
            exact List.mem_cons_self x xs

lemma first_argmax_eq_none : ∀ l : List (String × Int),
    first_argmax l = none → l = []
  | [], _ => rfl
  | x :: xs, h => by
      cases hx : first_argmax xs with
      | none =>
          simp only [first_argmax, hx] at h
          exact Option.noConfusion h
      | some y =>
          simp only [first_argmax, hx] at h
          split at h <;> simp at h

lemma first_argmax_max : ∀ (l : List (String × Int)) (m : String × Int),
    first_argmax l = some m → ∀ p ∈ l, p.2 ≤ m.2
  | [], m, h => by simp [first_argmax] at h
  | x :: xs, m, h => by
      intro p hp
      cases hx : first_argmax xs with
      | none =>
          simp only [first_argmax, hx] at h
          cases h
          have hxs : xs = [] := first_argmax_eq_none xs hx
          subst hxs
          have hpx : p = x := by simpa using hp
          subst hpx
          exact le_refl _
      | some y =>
          simp only [first_argmax, hx] at h
          have ihy := first_argmax_max xs _ hx
          by_cases hgt : y.2 > x.2
          · rw [if_pos hgt] at h
            cases h
            rcases List.mem_cons.mp hp with heq | hmem
            · subst heq; omega
            · exact ihy p hmem
          · rw [if_neg hgt] at h
            cases h
            rcases List.mem_cons.mp hp with heq | hmem
            · subst heq; exact le_refl _
            · have := ihy p hmem; omega

lemma first_argmax_earliest : ∀ (l : List (String × Int)) (m : String × Int),
    first_argmax l = some m →
    ∃ pre post, l = pre ++ m :: post ∧ ∀ p ∈ pre, p.2 < m.2
  | [], m, h => by simp [first_argmax] at h
  | x :: xs, m, h => by
      cases hx : first_argmax xs with
      | none =>
          simp only [first_argmax, hx] at h
          cases h
          exact ⟨[], xs, rfl, by simp⟩
      | some y =>
          simp only [first_argmax, hx] at h
          by_cases hgt : y.2 > x.2
          · rw [if_pos hgt] at h
            cases h
            obtain ⟨pre, post, heq, hlt⟩ := first_argmax_earliest xs _ hx
            refine ⟨x :: pre, post, by rw [heq]; rfl, ?_⟩
            intro p hp
            rcases List.mem_cons.mp hp with heq2 | hmem
            · subst heq2; exact hgt
            · exact hlt p hmem
          · rw [if_neg hgt] at h
            cases h
            exact ⟨[], xs, rfl, by simp⟩

/-- C8: `make_world` selects, from the mapping of bot identity to
conversations-still-needed minus conversations already counted, the
identity with the largest remaining-need value, breaking ties by the
mapping's deterministic (insertion) order — the selected entry is the
earliest one attaining the maximum — and increments exactly that
identity's `run_statistics` counter by one, leaving all others
unchanged. -/
theorem c8_bot_assignment (conversations_needed : List (String × Int))
    (run_statistics : String → Int) (hne : conversations_needed ≠ []) :
    ∃ (m : String) (c : Int) (stats2 : String → Int),
      make_world_select conversations_needed run_statistics =
        some (m, stats2) ∧
      (m, c) ∈ remaining_counts_needed conversations_needed run_statistics ∧
      (∀ p ∈ remaining_counts_needed conversations_needed run_statistics,
        p.2 ≤ c) ∧
      (∃ pre post,
        remaining_counts_needed conversations_needed run_statistics =
          pre ++ (m, c) :: post ∧ ∀ p ∈ pre, p.2 < c) ∧
      stats2 m = run_statistics m + 1 ∧
      (∀ k, k ≠ m → stats2 k = run_statistics k) := by
  have hrne : remaining_counts_needed conversations_needed run_statistics ≠
      [] := by
    unfold remaining_counts_needed
    simpa using hne
  obtain ⟨mc, hmc⟩ : ∃ mc, first_argmax
      (remaining_counts_needed conversations_needed run_statistics) =
      some mc := by
    cases hfa : first_argmax
        (remaining_counts_needed conversations_needed run_statistics) with
    | none => exact absurd (first_argmax_eq_none _ hfa) hrne
    | some mc => exact ⟨mc, rfl⟩
  refine ⟨mc.1, mc.2,
    fun k => if k = mc.1 then run_statistics k + 1 else run_statistics k,
    ?_, ?_, ?_, ?_, ?_, ?_⟩
  · unfold make_world_select
    rw [sort_desc_head, hmc]
  · simpa using first_argmax_mem _ mc hmc
  · have := first_argmax_max _ mc hmc
    exact this
  · obtain ⟨pre, post, heq, hlt⟩ := first_argmax_earliest _ mc hmc
    exact ⟨pre, post, by simpa using heq, hlt⟩
  · simp
  · intro k hk
    simp [hk]

/-- C8, witness at a concrete input. -/
theorem c8_witness :
    ∃ (m : String) (c : Int) (stats2 : String → Int),
      make_world_select [( "a", 2), ( "b", 5)] (fun _ => 0) =
        some (m, stats2) ∧
      (m, c) ∈ remaining_counts_needed [( "a", 2), ( "b", 5)] (fun _ => 0) ∧
      (∀ p ∈ remaining_counts_needed [( "a", 2), ( "b", 5)] (fun _ => 0),
        p.2 ≤ c) ∧
      (∃ pre post,
        remaining_counts_needed [( "a", 2), ( "b", 5)] (fun _ => 0) =
          pre ++ (m, c) :: post ∧ ∀ p ∈ pre, p.2 < c) ∧
      stats2 m = (fun _ => (0 : Int)) m + 1 ∧
      (∀ k, k ≠ m → stats2 k = (fun _ => (0 : Int)) k) :=
  c8_bot_assignment [( "a", 2), ( "b", 5)] (fun _ => 0) (by simp)

/-! ### Chat-machine helper lemmas (C3, C4, C9) -/

lemma map_set_invariant {β : Type} (f : Utterance → β) :
    ∀ (l : List Utterance) (k : Nat) (u v : Utterance),
      l[k]? = some u → f v = f u → (l.set k v).map f = l.map f
  | [], k, u, v, h, _ => by simp at h
  | x :: xs, 0, u, v, h, hf => by
      simp only [List.getElem?_cons_zero, Option.some.injEq] at h
      subst h
      simp [List.set, hf]
  | x :: xs, k + 1, u, v, h, hf => by
      simp only [List.getElem?_cons_succ] at h
      simp [List.set, map_set_invariant f xs k u v h hf]

lemma py_attach_exists (d : List Utterance) (i : Int) (p : ProblemData)
    (d' : List Utterance) (h : py_attach d i p = .ok d') :
    ∃ (k : Nat) (u : Utterance), d[k]? = some u ∧
      d' = d.set k { u with problemData := some p } := by
  unfold py_attach at h
  by_cases h0 : (0 : Int) ≤ (if i < 0 then (d.length : Int) + i else i)
  · rw [if_pos h0] at h
    cases hu : d[(if i < 0 then (d.length : Int) + i else i).toNat]? with
    | none =>
        rw [hu] at h
        exact Except.noConfusion h
    | some u =>
        rw [hu] at h
        have h2 : Except.ok (d.set
            (if i < 0 then (d.length : Int) + i else i).toNat
            { u with problemData := some p }) = Except.ok d' := h
        exact ⟨_, u, hu, (Except.ok.inj h2).symm⟩
  · rw [if_neg h0] at h
    exact Except.noConfusion h

lemma core_fields_attach (u : Utterance) (p : ProblemData) :
    core_fields { u with problemData := some p } = core_fields u := rfl

lemma py_attach_core (d : List Utterance) (i : Int) (p : ProblemData)
    (d' : List Utterance) (h : py_attach d i p = .ok d') :
    core_list d' = core_list d := by
  obtain ⟨k, u, hu, rfl⟩ := py_attach_exists d i p _ h
  exact map_set_invariant core_fields d k u _ hu rfl

lemma core_length (d : List Utterance) : (core_list d).length = d.length := by
  simp [core_list]

lemma ag_from_core (d : List Utterance) :
    ag_list d = (core_list d).map Prod.fst := by
  unfold ag_list core_list
  rw [List.map_map]
  rfl

lemma core_eq_length {d1 d2 : List Utterance}
    (h : core_list d1 = core_list d2) : d1.length = d2.length := by
  have := congrArg List.length h
  simpa [core_length] using this

lemma core_append_length {d1 d2 : List Utterance}
    {c : Nat × String × String × Bool}
    (h : core_list d1 = core_list d2 ++ [c]) : d1.length = d2.length + 1 := by
  have := congrArg List.length h
  simpa [core_length] using this

lemma ag_of_core_eq {d1 d2 : List Utterance}
    (h : core_list d1 = core_list d2) : ag_list d1 = ag_list d2 := by
  rw [ag_from_core, h, ← ag_from_core]

lemma ag_of_core_append {d1 d2 : List Utterance} {u : Utterance}
    (h : core_list d1 = core_list d2 ++ [core_fields u]) :
    ag_list d1 = ag_list d2 ++ [u.agentIdx] := by
  rw [ag_from_core, h, List.map_append, ← ag_from_core]
  rfl

lemma ag_length (d : List Utterance) : (ag_list d).length = d.length := by
  simp [ag_list]

lemma alt_from_append : ∀ (l : List Nat) (k a : Nat),
    alt_from k l → a = (k + l.length) % 2 → alt_from k (l ++ [a])
  | [], k, a, _, ha => by
      refine ⟨?_, trivial⟩
      simpa using ha
  | b :: l, k, a, h, ha => by
      obtain ⟨hb, hrest⟩ := h
      refine ⟨hb, alt_from_append l (k + 1) a hrest ?_⟩
      simp only [List.length_cons] at ha
      omega

lemma set_append_length {α : Type} : ∀ (l : List α) (a b : α),
    (l ++ [a]).set l.length b = l ++ [b]
  | [], _, _ => rfl
  | x :: t, a, b => by simp [List.set, set_append_length t a b]

lemma py_attach_append (l : List Utterance) (u : Utterance) (p : ProblemData) :
    py_attach (l ++ [u]) (-1) p =
      .ok (l ++ [{ u with problemData := some p }]) := by
  unfold py_attach
  have hj : (if (-1 : Int) < 0 then ((l ++ [u]).length : Int) + (-1)
      else (-1)) = (l.length : Int) := by
    rw [if_pos (by norm_num)]
    push_cast [List.length_append, List.length_singleton]
    ring
  rw [hj]
  rw [if_pos (by positivity)]
  simp only [Int.toNat_natCast, List.getElem?_concat_length,
    set_append_length]

lemma py_attach_last (d : List Utterance) (u : Utterance) (p : ProblemData)
    (h : d.getLast? = some u) :
    py_attach d (-1) p =
      .ok (d.dropLast ++ [{ u with problemData := some p }]) := by
  have hne : d ≠ [] := by
    intro hd
    subst hd
    simp at h
  have hlast : d.getLast hne = u := by
    have h3 := List.getLast?_eq_getLast d hne
    rw [h] at h3
    exact (Option.some.injEq _ _).mp h3.symm
  have hd : d.dropLast ++ [u] = d := by
    rw [← hlast]
    exact List.dropLast_append_getLast hne
  calc py_attach d (-1) p = py_attach (d.dropLast ++ [u]) (-1) p := by rw [hd]
    _ = .ok (d.dropLast ++ [{ u with problemData := some p }]) :=
        py_attach_append _ _ _

lemma process_slot_spec (cfg : ChatConfig) (slot : Nat) (a : Act)
    (s : ChatState) (out : ChatState × Bool)
    (h : process_slot cfg slot a s = .ok out) :
    (core_list out.1.dialog = core_list s.dialog ∧
      out.1.taskTurnIdx = s.taskTurnIdx ∧ out.2 = true ∧
      out.1.chatDone = true) ∨
    (∃ u : Utterance, u.agentIdx = slot ∧
      core_list out.1.dialog = core_list s.dialog ++ [core_fields u] ∧
      out.1.taskTurnIdx = s.taskTurnIdx + 1 ∧ out.2 = false ∧
      out.1.chatDone = s.chatDone) := by
  simp only [process_slot] at h
  split at h
  · -- final-rating branch
    split at h
    · -- task_turn_idx > num_turns: attach to the prior utterance
      split at h
      · rename_i td htd
        split at h
        · rename_i p hp
          split at h
          · rename_i d hd
            cases h
            left
            exact ⟨py_attach_core _ _ _ _ hd, rfl, rfl, rfl⟩
          · exact Except.noConfusion h
        · exact Except.noConfusion h
      · exact Except.noConfusion h
    · cases h
      left
      exact ⟨rfl, rfl, rfl, rfl⟩
  · -- ordinary utterance branch
    split at h
    · -- slot = 0: append then attach the carried payload
      rename_i hslot
      split at h
      · rename_i td htd
        split at h
        · rename_i p hp
          split at h
          · rename_i d hd
            cases h
            right
            refine ⟨loop_utterance slot a, rfl, ?_, rfl, rfl, rfl⟩
            have h1 := py_attach_core _ _ _ _ hd
            rw [h1]
            simp [core_list]
          · exact Except.noConfusion h
        · exact Except.noConfusion h
      · exact Except.noConfusion h
    · cases h
      right
      refine ⟨loop_utterance slot a, rfl, ?_, rfl, rfl, rfl⟩
      simp [core_list]

lemma parley_main_cases (cfg : ChatConfig) (hA bA : Act) (s s' : ChatState)
    (hdone : s.chatDone = false) (h : parley_main cfg hA bA s = .ok s') :
    ∃ out0, process_slot cfg 0 hA s = .ok out0 ∧
      ((out0.2 = true ∧ s' = out0.1) ∨
        (out0.2 = false ∧ ∃ out1,
          process_slot cfg 1 bA out0.1 = .ok out1 ∧ s' = out1.1)) := by
  unfold parley_main at h
  rw [if_neg (by simp [hdone])] at h
  split at h
  · exact Except.noConfusion h
  · rename_i s1 stop hout0
    split at h
    · rename_i hstop
      cases h
      exact ⟨_, hout0, Or.inl ⟨hstop, rfl⟩⟩
    · rename_i hstop
      split at h
      · exact Except.noConfusion h
      · rename_i s2 b hout1
        cases h
        exact ⟨_, hout0,
          Or.inr ⟨Bool.eq_false_iff.mpr hstop, _, hout1, rfl⟩⟩

lemma parley_main_inv (cfg : ChatConfig) (hA bA : Act) (s s' : ChatState)
    (hs : chat_inv s) (hdone : s.chatDone = false)
    (h : parley_main cfg hA bA s = .ok s') : chat_inv s' := by
  obtain ⟨hlen, hpar, halt⟩ := hs
  have hodd := hpar hdone
  obtain ⟨out0, h0, hrest⟩ := parley_main_cases cfg hA bA s s' hdone h
  have hspec0 := process_slot_spec cfg 0 hA s out0 h0
  rcases hrest with ⟨hstop, rfl⟩ | ⟨hstop, out1, h1, rfl⟩
  · rcases hspec0 with ⟨hc, hi, -, hd⟩ | ⟨u, hu, hc, hi, hst, hd⟩
    · refine ⟨?_, ?_, ?_⟩
      · rw [core_eq_length hc, hi, hlen]
      · intro hfd
        rw [hfd] at hd
        exact Bool.noConfusion hd
      · rw [ag_of_core_eq hc]
        exact halt
    · rw [hstop] at hst
      exact Bool.noConfusion hst
  · rcases hspec0 with ⟨-, -, hst, -⟩ | ⟨u, hu, hc, hi, -, hd⟩
    · rw [hstop] at hst
      exact Bool.noConfusion hst
    · have hlen0 : out0.1.dialog.length = s.taskTurnIdx + 2 := by
        rw [core_append_length hc, hlen]
      have halt0 : alt_from 0 (ag_list out0.1.dialog) := by
        rw [ag_of_core_append hc, hu]
        refine alt_from_append _ _ _ halt ?_
        rw [ag_length, hlen]
        omega
      have hspec1 := process_slot_spec cfg 1 bA out0.1 out1 h1
      rcases hspec1 with ⟨hc1, hi1, -, hd1⟩ | ⟨v, hv, hc1, hi1, -, hd1⟩
      · refine ⟨?_, ?_, ?_⟩
        · rw [core_eq_length hc1, hlen0, hi1, hi]
        · intro hfd
          rw [hfd] at hd1
          exact Bool.noConfusion hd1
        · rw [ag_of_core_eq hc1]
          exact halt0
      · refine ⟨?_, ?_, ?_⟩
        · rw [core_append_length hc1, hlen0, hi1, hi]
        · intro _
          rw [hi1, hi]
          omega
        · rw [ag_of_core_append hc1, hv]
          refine alt_from_append _ _ _ halt0 ?_
          rw [ag_length, hlen0]
          omega

lemma parley_main_prefix (cfg : ChatConfig) (hA bA : Act) (s s' : ChatState)
    (hdone : s.chatDone = false) (h : parley_main cfg hA bA s = .ok s') :
    core_list s.dialog <+: core_list s'.dialog := by
  obtain ⟨out0, h0, hrest⟩ := parley_main_cases cfg hA bA s s' hdone h
  have hpre0 : core_list s.dialog <+: core_list out0.1.dialog := by
    rcases process_slot_spec cfg 0 hA s out0 h0 with ⟨hc, -⟩ | ⟨u, -, hc, -⟩
    · rw [hc]
    · rw [hc]
      exact List.prefix_append _ _
  rcases hrest with ⟨-, rfl⟩ | ⟨-, out1, h1, rfl⟩
  · exact hpre0
  · refine hpre0.trans ?_
    rcases process_slot_spec cfg 1 bA out0.1 out1 h1 with
      ⟨hc, -⟩ | ⟨v, -, hc, -⟩
    · rw [hc]
    · rw [hc]
      exact List.prefix_append _ _

lemma parley_zero_eq (cfg : ChatConfig) (a : Act) (s : ChatState) :
    parley_zero cfg a s =
      if cfg.conversation_start_mode = "bst" then
        Except.ok (bst_parley_state cfg s)
      else if cfg.conversation_start_mode = "hi" then
        match a.id with
        | none => Except.error "KeyError: id"
        | some bid => Except.ok (hi_parley_state cfg a.text bid s)
      else
        Except.error ( "ValueError: Conversation start mode " ++
          cfg.conversation_start_mode ++ " not recognized!") := by
  cases hip : cfg.include_persona <;>
    simp [parley_zero, get_persona_utterance, hip]

lemma parley_zero_inv (cfg : ChatConfig) (a : Act) (s : ChatState)
    (h : parley_zero cfg a chat_init = .ok s) : chat_inv s := by
  rw [parley_zero_eq] at h
  split at h
  · cases h
    exact ⟨rfl, fun _ => rfl, rfl, rfl, trivial⟩
  · split at h
    · split at h
      · exact Except.noConfusion h
      · cases h
        exact ⟨rfl, fun _ => rfl, rfl, rfl, trivial⟩
    · exact Except.noConfusion h

lemma run_chat_fold_inv (cfg : ChatConfig) :
    ∀ (inputs : List ParleyActs) (s s' : ChatState),
      (s = chat_init ∨ chat_inv s) →
      inputs.foldlM (fun t inp => if t.chatDone then Except.ok t
        else parley cfg inp t) s = .ok s' →
      s' = chat_init ∨ chat_inv s'
  | [], s, s', hs, h => by
      simp only [List.foldlM_nil] at h
      cases h
      exact hs
  | inp :: rest, s, s', hs, h => by
      rw [List.foldlM_cons] at h
      by_cases hd : s.chatDone = true
      · rw [if_pos hd] at h
        have h2 : rest.foldlM (fun t inp => if t.chatDone then Except.ok t
            else parley cfg inp t) s = .ok s' := h
        exact run_chat_fold_inv cfg rest s s' hs h2
      · rw [if_neg hd] at h
        cases hp : parley cfg inp s with
        | error e =>
            rw [hp] at h
            exact Except.noConfusion h
        | ok mid =>
            rw [hp] at h
            have h2 : rest.foldlM (fun t inp => if t.chatDone then Except.ok t
                else parley cfg inp t) mid = .ok s' := h
            have hdf : s.chatDone = false := Bool.eq_false_iff.mpr hd
            have hmid : chat_inv mid := by
              rcases hs with rfl | hinv
              · have hz : parley_zero cfg inp.first_bot chat_init =
                    .ok mid := hp
                exact parley_zero_inv cfg inp.first_bot mid hz
              · have hne : ¬ s.taskTurnIdx = 0 := by
                  have := hinv.2.1 hdf
                  omega
                have hpm : parley_main cfg inp.human inp.bot s = .ok mid := by
                  unfold parley at hp
                  rwa [if_neg hne] at hp
                exact parley_main_inv cfg inp.human inp.bot s mid hinv hdf hpm
            exact run_chat_fold_inv cfg rest mid s' (Or.inr hmid) h2

lemma run_chat_inv (cfg : ChatConfig) (inputs : List ParleyActs)
    (s : ChatState) (h : run_chat cfg inputs = .ok s) :
    s = chat_init ∨ chat_inv s :=
  run_chat_fold_inv cfg inputs chat_init s (Or.inl rfl) h

/-! ### C3: dialog-length / alternation invariants -/

/-- C3, counterexample.  A completed `'bst'`-mode conversation (one full
round then the rating-completion message) ends with `len(dialog) = 4` and
`task_turn_idx = 3`: the claimed relation `len(dialog) = 2*final_turn_idx
+ 2` (and the one without `+2`) both fail, because the counter advances
once per utterance, not once per pair.  Moreover the turn-zero seed-pair
insertion advances the counter from 0 to 1, so it is not
counter-neutral. -/
theorem c3_counterexample :
    (run_chat ex_cfg_bst [ex_inp ex_h_act ex_b_act, ex_inp ex_h_act ex_b_act,
        ex_inp ex_h_fin ex_b_act]).map
        (fun s => (s.dialog.length, s.taskTurnIdx, s.chatDone)) =
      Except.ok (4, 3, true) ∧
    ¬ ((4 : Nat) = 2 * 3 + 2) ∧ ¬ ((4 : Nat) = 2 * 3) ∧
    (parley_zero ex_cfg_bst ex_first_act chat_init).map
      (fun s => s.taskTurnIdx) = Except.ok 1 ∧ ¬ ((1 : Nat) = 0) := by
  refine ⟨rfl, by decide, by decide, rfl, by decide⟩

/-- C3, amended: for every completed conversation,
`len(dialog) = final_task_turn_idx + 1` (the counter advances once per
recorded utterance and once for the whole turn-zero initialization, in
both start modes), the recorded `agent_idx` values strictly alternate
`0,1,0,1,...` starting at 0, no utterance is ever removed or altered in
its core fields once appended (each main-loop step extends the
core-field sequence as a prefix), and the `'bst'` seed pair is inserted
as a 0-then-1 pair while the counter advances by exactly 1 (from 0 to 1)
during that initialization. -/
theorem c3_dialog_invariants :
    (∀ (cfg : ChatConfig) (inputs : List ParleyActs) (s : ChatState),
      run_chat cfg inputs = Except.ok s → s.chatDone = true →
      s.dialog.length = s.taskTurnIdx + 1 ∧ alt_from 0 (ag_list s.dialog)) ∧
    (∀ (cfg : ChatConfig) (hA bA : Act) (s s' : ChatState),
      s.chatDone = false → parley_main cfg hA bA s = Except.ok s' →
      core_list s.dialog <+: core_list s'.dialog) ∧
    (∀ (cfg : ChatConfig) (a : Act) (s : ChatState),
      cfg.conversation_start_mode = "bst" →
      parley_zero cfg a chat_init = Except.ok s →
      s.dialog = [bst_human_seed cfg, bst_bot_seed cfg] ∧
      (bst_human_seed cfg).agentIdx = 0 ∧ (bst_bot_seed cfg).agentIdx = 1 ∧
      s.taskTurnIdx = 1) := by
  refine ⟨?_, parley_main_prefix, ?_⟩
  · intro cfg inputs s h hdone
    rcases run_chat_inv cfg inputs s h with rfl | hinv
    · exact Bool.noConfusion hdone
    · exact ⟨hinv.1, hinv.2.2⟩
  · intro cfg a s hmode h
    rw [parley_zero_eq, if_pos hmode] at h
    cases h
    exact ⟨rfl, rfl, rfl, rfl⟩

/-- C3, witness for the amended theorem at concrete inputs. -/
theorem c3_witness :
    (ex_c3_state.dialog.length = ex_c3_state.taskTurnIdx + 1 ∧
      alt_from 0 (ag_list ex_c3_state.dialog)) ∧
    core_list ex_c3_mid.dialog <+: core_list ex_c3_post.dialog ∧
    (ex_c3_mid.dialog = [bst_human_seed ex_cfg_bst, bst_bot_seed ex_cfg_bst] ∧
      (bst_human_seed ex_cfg_bst).agentIdx = 0 ∧
      (bst_bot_seed ex_cfg_bst).agentIdx = 1 ∧ ex_c3_mid.taskTurnIdx = 1) :=
  ⟨c3_dialog_invariants.1 ex_cfg_bst
      [ex_inp ex_h_act ex_b_act, ex_inp ex_h_fin ex_b_act] ex_c3_state rfl rfl,
   c3_dialog_invariants.2.1 ex_cfg_bst ex_h_act ex_b_act ex_c3_mid
      ex_c3_post rfl rfl,
   c3_dialog_invariants.2.2 ex_cfg_bst ex_first_act ex_c3_mid rfl rfl⟩

/-! ### C4: rating-completion handling -/

lemma process_slot_final (cfg : ChatConfig) (slot : Nat) (a : Act)
    (s : ChatState) (td : TaskData) (r : String) (p : ProblemData)
    (htd : a.taskData = some td) (hr : td.finalRating = some r)
    (hp : td.problemData = some p) :
    process_slot cfg slot a s =
      if s.taskTurnIdx > cfg.num_turns then
        (match py_attach s.dialog ((slot : Int) - 1) p with
          | .ok d => .ok ({ s with chatDone := true, dialog := d }, true)
          | .error e => .error e)
      else .ok ({ s with chatDone := true }, true) := by
  simp only [process_slot, htd, hr, hp, Option.isSome_some, if_true]

lemma py_attach_zero (d : List Utterance) (u0 : Utterance) (p : ProblemData)
    (h : d[0]? = some u0) :
    py_attach d 0 p = .ok (d.set 0 { u0 with problemData := some p }) := by
  unfold py_attach
  have h1 : (if (0 : Int) < 0 then (d.length : Int) + 0 else 0) = (0 : Int) := by
    norm_num
  rw [h1, if_pos (le_refl (0 : Int))]
  simp only [Int.toNat_zero, h]

/-- C4, counterexample.  The rating-completion branch runs for either
slot, and for the bot slot it attaches the payload at
`dialog[idx - 1] = dialog[0]`.  Concretely: in the main loop the human
speaks normally, then the bot's act carries `final_rating` with payload
`[('bfin', true)]` and `task_turn_idx = 2 > num_turns = 1`; the claim
says the payload is attached to the immediately preceding utterance's
record, but the code attaches it to the *first* recorded utterance
(`dialog[0]`, whose record becomes `[('bfin', true)]`), while the
immediately preceding utterance (the last one) keeps only its own
earlier annotation `[('ok', true)]`. -/
theorem c4_counterexample :
    (parley_main ex_cfg_bst ex_h_act ex_b_fin ex_c3_mid).map
        (fun s => (s.chatDone, s.taskTurnIdx,
          s.dialog.map fun u => u.problemData)) =
      Except.ok (true, 2,
        [some [("bfin", true)], none, some [("ok", true)]]) ∧
    (2 : Nat) > ex_cfg_bst.num_turns ∧
    ¬ ((some [("ok", true)] : Option ProblemData) = some [("bfin", true)]) := by
  refine ⟨rfl, by decide, by decide⟩

/-- C4, amended: in the chat main loop, a message carrying a non-`None`
`final_rating` marks the conversation done and leaves the turn counter
unchanged, and its annotation payload is attached if and only if
`task_turn_idx > num_turns` (otherwise it is discarded with no
attachment) — but the attachment target is the Python index
`slot - 1` of the dialog: for the human slot (index `-1`) that is the
immediately preceding (last recorded) utterance's record, as the claim
states, while for the bot slot (index `0`) it is the *first* recorded
utterance, not the immediately preceding one. -/
theorem c4_final_rating :
    (∀ (cfg : ChatConfig) (s : ChatState) (hA bA : Act) (td : TaskData)
        (r : String) (p : ProblemData) (u : Utterance),
      s.chatDone = false → hA.taskData = some td →
      td.finalRating = some r → td.problemData = some p →
      s.dialog.getLast? = some u →
      parley_main cfg hA bA s = Except.ok
        { s with
          chatDone := true
          dialog := if s.taskTurnIdx > cfg.num_turns then
              s.dialog.dropLast ++ [{ u with problemData := some p }]
            else s.dialog }) ∧
    (∀ (cfg : ChatConfig) (a : Act) (s : ChatState) (td : TaskData)
        (r : String) (p : ProblemData) (u0 : Utterance),
      a.taskData = some td → td.finalRating = some r →
      td.problemData = some p → s.dialog[0]? = some u0 →
      process_slot cfg 1 a s = Except.ok
        ({ s with
           chatDone := true
           dialog := if s.taskTurnIdx > cfg.num_turns then
               s.dialog.set 0 { u0 with problemData := some p }
             else s.dialog }, true)) := by
  constructor
  · intro cfg s hA bA td r p u hdone htd hr hp hu
    unfold parley_main
    rw [if_neg (by simp [hdone]),
      process_slot_final cfg 0 hA s td r p htd hr hp]
    by_cases hgt : s.taskTurnIdx > cfg.num_turns
    · rw [if_pos hgt, if_pos hgt,
        show ((0 : Nat) : Int) - 1 = (-1 : Int) by norm_num,
        py_attach_last s.dialog u p hu]
      rfl
    · rw [if_neg hgt, if_neg hgt]
      rfl
  · intro cfg a s td r p u0 htd hr hp h0
    rw [process_slot_final cfg 1 a s td r p htd hr hp,
      show ((1 : Nat) : Int) - 1 = (0 : Int) by norm_num,
      py_attach_zero s.dialog u0 p h0]
    by_cases hgt : s.taskTurnIdx > cfg.num_turns
    · rw [if_pos hgt, if_pos hgt]
    · rw [if_neg hgt, if_neg hgt]

/-- C4, witness at concrete inputs: a human ending message with
`task_turn_idx = 3 > num_turns = 1` attaches its payload to the last
recorded (bot) utterance, and a bot ending message attaches its payload
at index 0. -/
theorem c4_witness :
    (parley_main ex_cfg_bst ex_h_fin ex_b_act ex_c3_post = Except.ok
      { ex_c3_post with
        chatDone := true
        dialog := if ex_c3_post.taskTurnIdx > ex_cfg_bst.num_turns then
            ex_c3_post.dialog.dropLast ++
              [{ ex_c3_bot_utt with problemData := some [("fin", true)] }]
          else ex_c3_post.dialog }) ∧
    (process_slot ex_cfg_bst 1 ex_b_fin ex_c3_post = Except.ok
      ({ ex_c3_post with
         chatDone := true
         dialog := if ex_c3_post.taskTurnIdx > ex_cfg_bst.num_turns then
             ex_c3_post.dialog.set 0
               { bst_human_seed ex_cfg_bst with
                 problemData := some [("bfin", true)] }
           else ex_c3_post.dialog }, true)) :=
  ⟨c4_final_rating.1 ex_cfg_bst ex_c3_post ex_h_fin ex_b_act
      { finalRating := some "5", problemData := some [("fin", true)] }
      "5" [("fin", true)] ex_c3_bot_utt rfl rfl rfl rfl rfl,
   c4_final_rating.2 ex_cfg_bst ex_b_fin ex_c3_post
      { finalRating := some "5", problemData := some [("bfin", true)] }
      "5" [("bfin", true)] (bst_human_seed ex_cfg_bst) rfl rfl rfl rfl⟩

/-! ### C9: break-marker truncation -/

lemma process_slot_human (cfg : ChatConfig) (a : Act) (s : ChatState)
    (td : TaskData) (p : ProblemData) (htd : a.taskData = some td)
    (hfr : td.finalRating = none) (hpd : td.problemData = some p) :
    process_slot cfg 0 a s = .ok ({ s with
      dialog := s.dialog ++ [{ loop_utterance 0 a with problemData := some p }]
      taskTurnIdx := s.taskTurnIdx + 1 }, false) := by
  simp only [process_slot, htd, hfr, hpd, Option.isSome_none,
    Bool.false_eq_true, if_false, py_attach_append]
  rfl

lemma process_slot_bot_plain (cfg : ChatConfig) (a : Act) (s : ChatState)
    (hbt : a.taskData = none) :
    process_slot cfg 1 a s = .ok ({ s with
      dialog := s.dialog ++ [loop_utterance 1 a]
      taskTurnIdx := s.taskTurnIdx + 1 }, false) := by
  simp only [process_slot, hbt]
  rfl

/-- C9: in the main loop the break-marker truncation is applied to *both*
sides — the recorded human (`agent_idx 0`) utterance text and the
recorded bot (`agent_idx 1`) utterance text are each
`cut_br` of the act's text — whereas the bot's first reply in
greeting-only (`'hi'`) start mode is recorded verbatim, with no
truncation.  Concretely, `'Hello there<br>[markup]'` is stored as
`'Hello there'`. -/
theorem c9_br_truncation :
    (∀ (cfg : ChatConfig) (s : ChatState) (hA bA : Act) (td : TaskData)
        (p : ProblemData),
      s.chatDone = false → hA.taskData = some td → td.finalRating = none →
      td.problemData = some p → bA.taskData = none →
      parley_main cfg hA bA s = Except.ok { s with
        dialog := (s.dialog ++
          [{ loop_utterance 0 hA with problemData := some p }]) ++
          [loop_utterance 1 bA]
        taskTurnIdx := s.taskTurnIdx + 1 + 1 } ∧
      (loop_utterance 0 hA).text = cut_br hA.text ∧
      (loop_utterance 1 bA).text = cut_br bA.text) ∧
    (∀ (cfg : ChatConfig) (a : Act) (s : ChatState) (bid : String),
      cfg.conversation_start_mode = "hi" → a.id = some bid →
      parley_zero cfg a s = Except.ok (hi_parley_state cfg a.text bid s) ∧
      (hi_first_bot_utterance a.text bid).text = a.text) ∧
    cut_br "Hello there<br>[markup]" = "Hello there" := by
  refine ⟨?_, ?_, rfl⟩
  · intro cfg s hA bA td p hdone htd hfr hpd hbt
    refine ⟨?_, rfl, rfl⟩
    have hb : ∀ t : ChatState, process_slot cfg 1 bA t = .ok ({ t with
        dialog := t.dialog ++ [loop_utterance 1 bA]
        taskTurnIdx := t.taskTurnIdx + 1 }, false) :=
      fun t => process_slot_bot_plain cfg bA t hbt
    unfold parley_main
    rw [if_neg (by simp [hdone]),
      process_slot_human cfg hA s td p htd hfr hpd]
    simp only [hb]
    rfl
  · intro cfg a s bid hm hid
    refine ⟨?_, rfl⟩
    rw [parley_zero_eq, if_neg (by rw [hm]; decide), if_pos hm, hid]

/-- C9, witness at concrete inputs. -/
theorem c9_witness :
    (parley_main ex_cfg_bst ex_h_act ex_b_act ex_c3_mid =
      Except.ok { ex_c3_mid with
        dialog := (ex_c3_mid.dialog ++
          [{ loop_utterance 0 ex_h_act with
              problemData := some [("ok", true)] }]) ++
          [loop_utterance 1 ex_b_act]
        taskTurnIdx := ex_c3_mid.taskTurnIdx + 1 + 1 } ∧
      (loop_utterance 0 ex_h_act).text = cut_br ex_h_act.text ∧
      (loop_utterance 1 ex_b_act).text = cut_br ex_b_act.text) ∧
    (parley_zero { ex_cfg_bst with conversation_start_mode := "hi" }
        ex_first_act chat_init =
      Except.ok (hi_parley_state
        { ex_cfg_bst with conversation_start_mode := "hi" }
        ex_first_act.text "B" chat_init) ∧
      (hi_first_bot_utterance ex_first_act.text "B").text =
        ex_first_act.text) :=
  ⟨c9_br_truncation.1 ex_cfg_bst ex_c3_mid ex_h_act ex_b_act
      { finalRating := none, problemData := some [("ok", true)] }
      [("ok", true)] rfl rfl rfl rfl rfl,
   c9_br_truncation.2.1 { ex_cfg_bst with conversation_start_mode := "hi" }
      ex_first_act chat_init "B" rfl rfl⟩

end TurnAnnotations
